import Mathlib

/-!
Verification of the render-loop / input-synchronization core of a Wayland
layer-shell wallpaper program (`src/main.rs`).

The embedding translates the `Wgpu` handler struct and its event handlers
(`LayerShellHandler::configure`, `LayerShellHandler::closed`,
`CompositorHandler::frame`, `KeyboardHandler::press_key`,
`PointerHandler::pointer_frame`) and the render step `Wgpu::draw` into pure
Lean functions.  GPU and compositor library calls made by `draw` are recorded
as an explicit call trace (`List GpuCall`); the two `panic` sources in `draw`
(the index `formats[0]` and the `expect` on `get_current_texture`) are
surfaced as an `Option DrawFailure`.  The event loop of `main` is the fold
`runLoop` over a list of delivered events, with the `exit`-flag check after
each dispatch, as in the source.
-/

/-- Texture formats reported by the surface capability query.  The source only
ever uses `swapchain_capabilities.formats[0]`, so the particular constructors
are immaterial; a few concrete ones plus an indexed catch-all are provided. -/
inductive TextureFormat where
  | Bgra8UnormSrgb
  | Rgba8UnormSrgb
  | other (n : Nat)
deriving DecidableEq

/-- A wgpu clear color (the source uses `wgpu::Color::GREEN`).  Components are
exact rationals; the source only ever passes the constant GREEN. -/
structure WgpuColor where
  r : ℚ
  g : ℚ
  b : ℚ
  a : ℚ
deriving DecidableEq

/-- The value of `wgpu::Color::GREEN`. -/
def colorGreen : WgpuColor := { r := 0, g := 1, b := 0, a := 1 }

/-- The `wgpu::SurfaceConfiguration` value built in `Wgpu::draw`
(`src/main.rs` lines 458-467). -/
structure SurfaceConfiguration where
  usageRenderAttachment : Bool
  format : TextureFormat
  viewFormats : List TextureFormat
  alphaModeAuto : Bool
  width : Nat
  height : Nat
  presentModeMailbox : Bool
deriving DecidableEq

/-- The external GPU / compositor calls `Wgpu::draw` can make, in source
order.  `damageSurface` and `requestFrameCallback` are included so that their
absence from the actual trace of `draw` is expressible; the source never
emits them. -/
inductive GpuCall where
  | getCapabilities
  | createShaderModule
  | createPipelineLayout
  | createRenderPipeline (fragmentTarget : TextureFormat)
  | configureSurface (cfg : SurfaceConfiguration)
  | getCurrentTexture
  | createTextureView
  | createCommandEncoder
  | beginRenderPass (clear : WgpuColor)
  | setPipeline
  | drawPrimitives (vertices instances : Nat)
  | submit
  | present
  | damageSurface
  | requestFrameCallback
deriving DecidableEq

/-- Errors `wgpu::Surface::get_current_texture` can return; `Lost` is the
surface-lost condition the spec discusses. -/
inductive AcquireError where
  | lost
  | outdated
  | timeout
deriving DecidableEq

/-- Result of one attempt to acquire the next surface texture. -/
inductive AcquireResult where
  | ok (texture : Nat)
  | err (e : AcquireError)
deriving DecidableEq

/-- The two `panic` sources in `Wgpu::draw`: indexing
`swapchain_capabilities.formats[0]` on an empty list, and the `expect` on
`get_current_texture()`. -/
inductive DrawFailure where
  | formatIndexOutOfBounds
  | acquireExpectFailed
deriving DecidableEq

/-- The environment the GPU library presents to `draw`: the surface's
supported formats, and the outcome of each successive texture-acquire
attempt (`acquire n` is the result of the n-th attempt within one call). -/
structure Env where
  formats : List TextureFormat
  acquire : Nat → AcquireResult

/-- Kinds of pointer events handled by `PointerHandler::pointer_frame`
(`src/main.rs` lines 392-414). -/
inductive PointerEventKind where
  | enter
  | leave
  | motion
  | press (button : Nat)
  | release (button : Nat)
  | axis
deriving DecidableEq

/-- One `PointerEvent`; `onSurface` models the `event.surface ==
self.layer.wl_surface()` test, `position` the `f64` pair (only printed by the
source, never consumed). -/
structure PointerEvent where
  onSurface : Bool
  position : ℚ × ℚ
  kind : PointerEventKind
deriving DecidableEq

/-- The mutable fields of the `Wgpu` handler struct that the embedded
handlers read or write (`src/main.rs` lines 156-173); the remaining fields
are opaque external handles. -/
structure Wgpu where
  exit : Bool
  first_configure : Bool
  width : Nat
  height : Nat
  shift : Option Nat
  keyboard_focus : Bool
deriving DecidableEq

/-- The initial `Wgpu` value built in `main` (`src/main.rs` lines 123-143). -/
def initWgpu : Wgpu :=
  { exit := false
    first_configure := true
    width := 256
    height := 256
    shift := none
    keyboard_focus := false }

/-- Rust `Option::xor`: `Some` iff exactly one argument is `Some`. -/
def optionXor (a b : Option Nat) : Option Nat :=
  match a, b with
  | some x, none => some x
  | none, some y => some y
  | _, _ => none

/-- One iteration of the `for event in events` loop of
`PointerHandler::pointer_frame`: events for other surfaces are skipped;
`Press` toggles `shift` via `self.shift.xor(Some(0))`; every other kind
(including `Motion`) leaves the state unchanged. -/
def pointer_frame_step (s : Wgpu) (e : PointerEvent) : Wgpu :=
  if e.onSurface = false then s
  else
    match e.kind with
    | PointerEventKind.press _ => { s with shift := optionXor s.shift (some 0) }
    | _ => s

/-- `PointerHandler::pointer_frame` (`src/main.rs` lines 379-416): fold the
per-event step over the delivered batch. -/
def pointer_frame (s : Wgpu) (events : List PointerEvent) : Wgpu :=
  events.foldl pointer_frame_step s

/-- `Wgpu::draw` (`src/main.rs` lines 420-500), as the trace of external
calls it makes plus the panic it hits, if any.  The source indexes
`formats[0]` (panics when empty), builds the surface configuration from
`self.width`/`self.height` with mailbox present mode, reconfigures the
surface unconditionally, makes a single `get_current_texture` attempt whose
failure panics via `expect`, then records, submits and presents one render
pass clearing to GREEN and drawing vertices `0..3`, instance `0..1`. -/
def draw (s : Wgpu) (env : Env) : List GpuCall × Option DrawFailure :=
  match env.formats with
  | [] => ([GpuCall.getCapabilities], some DrawFailure.formatIndexOutOfBounds)
  | swapchainFormat :: _ =>
    let surfaceConfig : SurfaceConfiguration :=
      { usageRenderAttachment := true
        format := swapchainFormat
        viewFormats := [swapchainFormat]
        alphaModeAuto := true
        width := s.width
        height := s.height
        presentModeMailbox := true }
    match env.acquire 0 with
    | AcquireResult.err _ =>
      ([GpuCall.getCapabilities, GpuCall.createShaderModule,
        GpuCall.createPipelineLayout, GpuCall.createRenderPipeline swapchainFormat,
        GpuCall.configureSurface surfaceConfig, GpuCall.getCurrentTexture],
       some DrawFailure.acquireExpectFailed)
    | AcquireResult.ok _ =>
      ([GpuCall.getCapabilities, GpuCall.createShaderModule,
        GpuCall.createPipelineLayout, GpuCall.createRenderPipeline swapchainFormat,
        GpuCall.configureSurface surfaceConfig, GpuCall.getCurrentTexture,
        GpuCall.createTextureView, GpuCall.createCommandEncoder,
        GpuCall.beginRenderPass colorGreen, GpuCall.setPipeline,
        GpuCall.drawPrimitives 3 1, GpuCall.submit, GpuCall.present],
       none)

/-- The xkb keysym `KEY_Escape` (0xff1b) compared against in
`KeyboardHandler::press_key`. -/
def keyEscape : Nat := 65307

/-- Events the compositor toolkit can deliver to the handlers the source
implements non-trivially. -/
inductive Event where
  | configure (newSize : Nat × Nat)
  | frame
  | closed
  | keyPress (keysym : Nat)
  | keyRelease (keysym : Nat)
  | keyboardEnter (onSurface : Bool)
  | keyboardLeave (onSurface : Bool)
  | pointerFrame (events : List PointerEvent)
deriving DecidableEq

/-- Result of dispatching one event: the updated handler state, the GPU
calls emitted while handling it, and the panic hit, if any. -/
structure Batch where
  state : Wgpu
  calls : List GpuCall
  failure : Option DrawFailure
deriving DecidableEq

/-- Dispatch of one delivered event to the corresponding handler of `Wgpu`:
`configure` (`src/main.rs` lines 231-252) replaces a size with a zero
component by the 256 by 256 fallback, stores the size, and on the first
configure clears `first_configure` and calls `draw`; `frame`
(lines 185-193) calls `draw`; `closed` (lines 227-229) sets `exit`;
`press_key` (lines 340-353) sets `exit` on Escape; keyboard enter and leave
(lines 310-338) track focus for the layer surface; `pointer_frame` folds the
pointer batch.  No handler requests a frame callback or marks damage. -/
def dispatchEvent (env : Env) (s : Wgpu) (e : Event) : Batch :=
  match e with
  | Event.configure newSize =>
    let s1 : Wgpu :=
      if newSize.1 = 0 ∨ newSize.2 = 0 then { s with width := 256, height := 256 }
      else { s with width := newSize.1, height := newSize.2 }
    if s1.first_configure then
      let s2 : Wgpu := { s1 with first_configure := false }
      let d := draw s2 env
      { state := s2, calls := d.1, failure := d.2 }
    else { state := s1, calls := [], failure := none }
  | Event.frame =>
    let d := draw s env
    { state := s, calls := d.1, failure := d.2 }
  | Event.closed => { state := { s with exit := true }, calls := [], failure := none }
  | Event.keyPress keysym =>
    if keysym = keyEscape then { state := { s with exit := true }, calls := [], failure := none }
    else { state := s, calls := [], failure := none }
  | Event.keyRelease _ => { state := s, calls := [], failure := none }
  | Event.keyboardEnter onSurface =>
    { state := if onSurface then { s with keyboard_focus := true } else s,
      calls := [], failure := none }
  | Event.keyboardLeave onSurface =>
    { state := if onSurface then { s with keyboard_focus := false } else s,
      calls := [], failure := none }
  | Event.pointerFrame evs =>
    { state := pointer_frame s evs, calls := [], failure := none }

/-- The handler state after dispatching a list of events in order. -/
def stateAfterEvents (env : Env) (s : Wgpu) (events : List Event) : Wgpu :=
  events.foldl (fun s e => (dispatchEvent env s e).state) s

/-- The GPU calls emitted while dispatching the i-th event of a run that
starts from `initWgpu` (the out-of-range default `Event.closed` emits no
calls). -/
def callsAt (env : Env) (events : List Event) (i : Nat) : List GpuCall :=
  (dispatchEvent env (stateAfterEvents env initWgpu (events.take i))
    (events.getD i Event.closed)).calls

/-- Wayland protocol validity of a delivered event sequence: a frame
callback is delivered only if the client requested one earlier in the run. -/
def validFrames (env : Env) (events : List Event) : Prop :=
  ∀ i, i < events.length → events.getD i Event.closed = Event.frame →
    ∃ j, j < i ∧ GpuCall.requestFrameCallback ∈ callsAt env events j

/-- Whether an event is a compositor configure notification. -/
def isConfigureEvent : Event → Bool
  | Event.configure _ => true
  | _ => false

/-- Outcome of the `main` event loop on a list of delivered events. -/
inductive RunResult where
  | exitCode (n : Nat)
  | aborted (f : DrawFailure)
  | waiting (s : Wgpu)

/-- The `loop` of `main` (`src/main.rs` lines 146-153): dispatch the next
event; a panic during dispatch aborts the process; otherwise the loop breaks
with process exit code 0 as soon as `exit` is set, and keeps waiting for
events otherwise. -/
def runLoop (env : Env) : Wgpu → List Event → RunResult
  | s, [] => RunResult.waiting s
  | s, e :: rest =>
    let b := dispatchEvent env s e
    match b.failure with
    | some f => RunResult.aborted f
    | none => if b.state.exit then RunResult.exitCode 0 else runLoop env b.state rest

/-- Modelled from the spec: the pointer-to-uniform normalization
`x' = 2*x/width - 1`, `y' = 1 - 2*y/height` of the ShaderUniform derivation;
no code under src normalizes pointer positions (they are never consumed), so
the formula is taken from the spec's words, stated over exact rationals. -/
def normalizePointer (x y w h : ℚ) : ℚ × ℚ :=
  (2 * x / w - 1, 1 - 2 * y / h)

/-- A pointer `Motion` event over the layer surface carrying one sample. -/
def motionEvent (p : ℚ × ℚ) : PointerEvent :=
  { onSurface := true, position := p, kind := PointerEventKind.motion }

/-- A concrete healthy environment: one supported format, every acquire
attempt succeeds. -/
def envOk : Env :=
  { formats := [TextureFormat.Bgra8UnormSrgb], acquire := fun _ => AcquireResult.ok 0 }

/-- A concrete environment whose first acquire attempt fails with
surface-lost and whose second attempt would succeed. -/
def envLost : Env :=
  { formats := [TextureFormat.Bgra8UnormSrgb]
    acquire := fun n => if n = 0 then AcquireResult.err AcquireError.lost else AcquireResult.ok 0 }

lemma pointer_frame_step_width (s : Wgpu) (e : PointerEvent) :
    (pointer_frame_step s e).width = s.width := by
  unfold pointer_frame_step
  split
  · rfl
  · split <;> rfl

lemma pointer_frame_step_height (s : Wgpu) (e : PointerEvent) :
    (pointer_frame_step s e).height = s.height := by
  unfold pointer_frame_step
  split
  · rfl
  · split <;> rfl

lemma pointer_frame_width (evs : List PointerEvent) (s : Wgpu) :
    (pointer_frame s evs).width = s.width := by
  induction evs generalizing s with
  | nil => rfl
  | cons e evs ih =>
    show (pointer_frame (pointer_frame_step s e) evs).width = s.width
    rw [ih, pointer_frame_step_width]

lemma pointer_frame_height (evs : List PointerEvent) (s : Wgpu) :
    (pointer_frame s evs).height = s.height := by
  induction evs generalizing s with
  | nil => rfl
  | cons e evs ih =>
    show (pointer_frame (pointer_frame_step s e) evs).height = s.height
    rw [ih, pointer_frame_step_height]

lemma draw_congr (s s' : Wgpu) (env : Env)
    (hw : s.width = s'.width) (hh : s.height = s'.height) :
    draw s env = draw s' env := by
  unfold draw
  rw [hw, hh]

lemma draw_no_rearm (s : Wgpu) (env : Env) :
    GpuCall.requestFrameCallback ∉ (draw s env).1 := by
  unfold draw
  rcases env.formats with _ | ⟨f, fs⟩
  · simp
  · rcases env.acquire 0 with t | e <;> simp

lemma draw_no_damage (s : Wgpu) (env : Env) :
    GpuCall.damageSurface ∉ (draw s env).1 := by
  unfold draw
  rcases env.formats with _ | ⟨f, fs⟩
  · simp
  · rcases env.acquire 0 with t | e <;> simp

lemma draw_config_dims (s : Wgpu) (env : Env) (cfg : SurfaceConfiguration)
    (h : GpuCall.configureSurface cfg ∈ (draw s env).1) :
    cfg.width = s.width ∧ cfg.height = s.height := by
  rcases hf : env.formats with _ | ⟨f, fs⟩
  · simp [draw, hf] at h
  · rcases ha : env.acquire 0 with t | e <;> simp [draw, hf, ha] at h <;>
      subst h <;> exact ⟨rfl, rfl⟩

lemma configure_s1_first (s : Wgpu) (ns : Nat × Nat) :
    (if ns.1 = 0 ∨ ns.2 = 0 then { s with width := 256, height := 256 }
     else { s with width := ns.1, height := ns.2 }).first_configure = s.first_configure := by
  split <;> rfl

lemma dispatch_configure_width (env : Env) (s : Wgpu) (ns : Nat × Nat) :
    (dispatchEvent env s (Event.configure ns)).state.width =
      (if ns.1 = 0 ∨ ns.2 = 0 then 256 else ns.1) := by
  by_cases hz : ns.1 = 0 ∨ ns.2 = 0 <;> simp only [dispatchEvent, hz, if_true, if_false] <;>
    split <;> rfl

lemma dispatch_configure_height (env : Env) (s : Wgpu) (ns : Nat × Nat) :
    (dispatchEvent env s (Event.configure ns)).state.height =
      (if ns.1 = 0 ∨ ns.2 = 0 then 256 else ns.2) := by
  by_cases hz : ns.1 = 0 ∨ ns.2 = 0 <;> simp only [dispatchEvent, hz, if_true, if_false] <;>
    split <;> rfl

lemma dispatch_no_rearm (env : Env) (s : Wgpu) (e : Event) :
    GpuCall.requestFrameCallback ∉ (dispatchEvent env s e).calls := by
  cases e with
  | configure ns =>
    simp only [dispatchEvent]
    split <;> split
    · exact draw_no_rearm _ env
    · simp
    · exact draw_no_rearm _ env
    · simp
  | frame => exact draw_no_rearm s env
  | closed => simp [dispatchEvent]
  | keyPress k =>
    by_cases hk : k = keyEscape <;> simp [dispatchEvent, hk]
  | keyRelease k => simp [dispatchEvent]
  | keyboardEnter b => simp [dispatchEvent]
  | keyboardLeave b => simp [dispatchEvent]
  | pointerFrame evs => simp [dispatchEvent]

lemma dispatch_calls_cases (env : Env) (s : Wgpu) (e : Event)
    (h : (dispatchEvent env s e).calls ≠ []) :
    (isConfigureEvent e = true ∧ s.first_configure = true) ∨ e = Event.frame := by
  cases e with
  | configure ns =>
    left
    simp only [dispatchEvent] at h
    split at h <;> split at h
    · next hfc => exact ⟨rfl, hfc⟩
    · simp at h
    · next hfc => exact ⟨rfl, hfc⟩
    · simp at h
  | frame => exact Or.inr rfl
  | closed => simp [dispatchEvent] at h
  | keyPress k =>
    by_cases hk : k = keyEscape <;> simp [dispatchEvent, hk] at h
  | keyRelease k => simp [dispatchEvent] at h
  | keyboardEnter b => simp [dispatchEvent] at h
  | keyboardLeave b => simp [dispatchEvent] at h
  | pointerFrame evs => simp [dispatchEvent] at h

lemma dispatch_dims_pos (env : Env) (s : Wgpu) (e : Event)
    (hw : 0 < s.width) (hh : 0 < s.height) :
    0 < (dispatchEvent env s e).state.width ∧ 0 < (dispatchEvent env s e).state.height := by
  cases e with
  | configure ns =>
    rw [dispatch_configure_width, dispatch_configure_height]
    constructor <;> split
    · norm_num
    · next hz =>
      push_neg at hz
      exact Nat.pos_of_ne_zero hz.1
    · norm_num
    · next hz =>
      push_neg at hz
      exact Nat.pos_of_ne_zero hz.2
  | frame => exact ⟨hw, hh⟩
  | closed => exact ⟨hw, hh⟩
  | keyPress k =>
    by_cases hk : k = keyEscape <;> simp [dispatchEvent, hk] <;> exact ⟨hw, hh⟩
  | keyRelease k => exact ⟨hw, hh⟩
  | keyboardEnter b =>
    by_cases hb : b <;> simp [dispatchEvent, hb] <;> exact ⟨hw, hh⟩
  | keyboardLeave b =>
    by_cases hb : b <;> simp [dispatchEvent, hb] <;> exact ⟨hw, hh⟩
  | pointerFrame evs =>
    show 0 < (pointer_frame s evs).width ∧ 0 < (pointer_frame s evs).height
    rw [pointer_frame_width, pointer_frame_height]
    exact ⟨hw, hh⟩

lemma draw_err_eq (s : Wgpu) (env : Env) (fmt : TextureFormat) (rest : List TextureFormat)
    (e : AcquireError) (hf : env.formats = fmt :: rest)
    (ha : env.acquire 0 = AcquireResult.err e) :
    draw s env =
      ([GpuCall.getCapabilities, GpuCall.createShaderModule, GpuCall.createPipelineLayout,
        GpuCall.createRenderPipeline fmt,
        GpuCall.configureSurface
          { usageRenderAttachment := true, format := fmt, viewFormats := [fmt],
            alphaModeAuto := true, width := s.width, height := s.height,
            presentModeMailbox := true },
        GpuCall.getCurrentTexture], some DrawFailure.acquireExpectFailed) := by
  simp only [draw, hf, ha]

lemma draw_ok_eq (s : Wgpu) (env : Env) (fmt : TextureFormat) (rest : List TextureFormat)
    (t : Nat) (hf : env.formats = fmt :: rest)
    (ha : env.acquire 0 = AcquireResult.ok t) :
    draw s env =
      ([GpuCall.getCapabilities, GpuCall.createShaderModule, GpuCall.createPipelineLayout,
        GpuCall.createRenderPipeline fmt,
        GpuCall.configureSurface
          { usageRenderAttachment := true, format := fmt, viewFormats := [fmt],
            alphaModeAuto := true, width := s.width, height := s.height,
            presentModeMailbox := true },
        GpuCall.getCurrentTexture, GpuCall.createTextureView, GpuCall.createCommandEncoder,
        GpuCall.beginRenderPass colorGreen, GpuCall.setPipeline,
        GpuCall.drawPrimitives 3 1, GpuCall.submit, GpuCall.present], none) := by
  simp only [draw, hf, ha]

lemma pointer_frame_motion_noop (evs : List PointerEvent) (s : Wgpu)
    (h : ∀ e ∈ evs, e.kind = PointerEventKind.motion) :
    pointer_frame s evs = s := by
  induction evs generalizing s with
  | nil => rfl
  | cons e evs ih =>
    have he : e.kind = PointerEventKind.motion := h e (List.mem_cons_self e evs)
    have hstep : pointer_frame_step s e = s := by
      unfold pointer_frame_step
      rw [he]
      split <;> rfl
    show pointer_frame (pointer_frame_step s e) evs = s
    rw [hstep]
    exact ih s (fun e' he' => h e' (List.mem_cons_of_mem e he'))

lemma dispatch_configure_calls_cfg (env : Env) (s : Wgpu) (ns : Nat × Nat)
    (cfg : SurfaceConfiguration)
    (h : GpuCall.configureSurface cfg ∈ (dispatchEvent env s (Event.configure ns)).calls) :
    cfg.width = (if ns.1 = 0 ∨ ns.2 = 0 then 256 else ns.1) ∧
    cfg.height = (if ns.1 = 0 ∨ ns.2 = 0 then 256 else ns.2) := by
  by_cases hz : ns.1 = 0 ∨ ns.2 = 0 <;>
    simp only [dispatchEvent, hz, if_true, if_false] at h ⊢ <;>
    split at h
  · have hc := draw_config_dims _ env cfg h
    exact ⟨hc.1, hc.2⟩
  · simp at h
  · have hc := draw_config_dims _ env cfg h
    exact ⟨hc.1, hc.2⟩
  · simp at h

/-- A surface state of 100 by 100 pixels used in concrete instances. -/
def wgpu100 : Wgpu := { initWgpu with width := 100, height := 100 }

/-- Follows the spec's words, for comparison with the source embedding
(claim C1 as stated): some reading of the render step's call trace yields,
for every nonempty sample sequence delivered before the step, the
normalization of the most recent sample at the current surface dimensions. -/
def specUniformClaim : Prop :=
  ∃ uniformOf : List GpuCall → ℚ × ℚ,
    ∀ (s : Wgpu) (samples : List (ℚ × ℚ)) (env : Env) (p : ℚ × ℚ),
      samples.getLast? = some p →
      uniformOf (draw (pointer_frame s (samples.map motionEvent)) env).1 =
        normalizePointer p.1 p.2 (s.width : ℚ) (s.height : ℚ)

/-- Claim C1 is false of the source: delivering sample (10,10) and
delivering sample (20,20) at surface size 100 by 100 leave the handler state
and the render step's call trace identical (motion events are ignored), yet
their normalizations differ, so no reading of the frame can equal the most
recent sample's normalization. -/
theorem C1_counterexample : ¬ specUniformClaim := by
  rintro ⟨uniformOf, hu⟩
  have h1 := hu wgpu100 [((10 : ℚ), (10 : ℚ))] envOk ((10 : ℚ), (10 : ℚ)) rfl
  have h2 := hu wgpu100 [((20 : ℚ), (20 : ℚ))] envOk ((20 : ℚ), (20 : ℚ)) rfl
  have hs1 : pointer_frame wgpu100 ([((10 : ℚ), (10 : ℚ))].map motionEvent) = wgpu100 := rfl
  have hs2 : pointer_frame wgpu100 ([((20 : ℚ), (20 : ℚ))].map motionEvent) = wgpu100 := rfl
  rw [hs1] at h1
  rw [hs2] at h2
  have heq := h1.symm.trans h2
  norm_num [normalizePointer, wgpu100, initWgpu, Prod.ext_iff] at heq

/-- Claim C1 (amended): pointer samples never influence the render step: the
render step's call trace after any sequence of delivered pointer events
equals the trace without them (pointer events touch at most the shift field,
which draw does not read), and motion events leave the handler state entirely
unchanged; in particular the render step never blocks on and never consumes a
sample. -/
theorem C1_pointer_samples_ignored (s : Wgpu) (evs : List PointerEvent) (env : Env) :
    draw (pointer_frame s evs) env = draw s env ∧
    ((∀ e ∈ evs, e.kind = PointerEventKind.motion) → pointer_frame s evs = s) := by
  constructor
  · exact draw_congr _ _ env (pointer_frame_width evs s) (pointer_frame_height evs s)
  · exact pointer_frame_motion_noop evs s

/-- Witness for C1 at a concrete motion event and healthy environment. -/
theorem C1_witness :
    draw (pointer_frame initWgpu [motionEvent (5, 7)]) envOk = draw initWgpu envOk ∧
    pointer_frame initWgpu [motionEvent (5, 7)] = initWgpu :=
  ⟨(C1_pointer_samples_ignored initWgpu [motionEvent (5, 7)] envOk).1,
   (C1_pointer_samples_ignored initWgpu [motionEvent (5, 7)] envOk).2
     (fun e he => by
       rw [List.mem_singleton] at he
       subst he
       rfl)⟩

/-- Follows the spec's words, for comparison with the source embedding
(claim C2 as stated): on a surface-lost acquire failure the caller
reconfigures and retries once, and even a repeated failure only skips the
frame — acquire failure never panics the render step. -/
def specAcquireRetryClaim : Prop :=
  ∀ (s : Wgpu) (env : Env), env.formats ≠ [] →
    env.acquire 0 = AcquireResult.err AcquireError.lost →
    (env.acquire 1 = AcquireResult.ok 0 → (draw s env).2 = none) ∧
    (draw s env).2 ≠ some DrawFailure.acquireExpectFailed

/-- Claim C2 is false of the source: with one supported format, a first
acquire attempt failing with surface-lost and a second attempt that would
succeed, the render step panics via the expect instead of retrying or
skipping. -/
theorem C2_counterexample : ¬ specAcquireRetryClaim := by
  intro hclaim
  have h := hclaim initWgpu envLost (by decide) rfl
  exact h.2 rfl

/-- Claim C2 (amended): when the single texture-acquire attempt fails (with
surface-lost or any other error), the render step panics via the expect on
get_current_texture — the frame is not skipped and the process crashes; there
is no retry: the outcome depends only on the first acquire attempt; the
surface is reconfigured unconditionally before that single attempt. -/
theorem C2_acquire_failure_panics (s : Wgpu) (env : Env) (e : AcquireError)
    (fmt : TextureFormat) (rest : List TextureFormat)
    (hf : env.formats = fmt :: rest) (ha : env.acquire 0 = AcquireResult.err e) :
    (draw s env).2 = some DrawFailure.acquireExpectFailed ∧
    (∀ env' : Env, env'.formats = env.formats → env'.acquire 0 = env.acquire 0 →
      draw s env' = draw s env) ∧
    (draw s env).1 =
      [GpuCall.getCapabilities, GpuCall.createShaderModule, GpuCall.createPipelineLayout,
       GpuCall.createRenderPipeline fmt,
       GpuCall.configureSurface
         { usageRenderAttachment := true, format := fmt, viewFormats := [fmt],
           alphaModeAuto := true, width := s.width, height := s.height,
           presentModeMailbox := true },
       GpuCall.getCurrentTexture] := by
  have hd := draw_err_eq s env fmt rest e hf ha
  refine ⟨by rw [hd], ?_, by rw [hd]⟩
  intro env' hf' ha'
  rw [draw_err_eq s env' fmt rest e (hf'.trans hf) (ha'.trans ha), hd]

/-- Witness for C2 at the concrete lost-then-ok environment. -/
theorem C2_witness :
    (draw initWgpu envLost).2 = some DrawFailure.acquireExpectFailed :=
  (C2_acquire_failure_panics initWgpu envLost AcquireError.lost
    TextureFormat.Bgra8UnormSrgb [] rfl rfl).1

/-- Follows the spec's words, for comparison with the source embedding
(claim C3 as stated): every successful render step marks the surface region
damaged and requests the next frame callback. -/
def specRearmClaim : Prop :=
  ∀ (s : Wgpu) (env : Env), (draw s env).2 = none →
    GpuCall.damageSurface ∈ (draw s env).1 ∧
    GpuCall.requestFrameCallback ∈ (draw s env).1

/-- Claim C3 is false of the source: a successful render step in the healthy
environment emits no frame-callback request (and no damage). -/
theorem C3_counterexample : ¬ specRearmClaim := by
  intro hclaim
  have h := hclaim initWgpu envOk rfl
  exact draw_no_rearm initWgpu envOk h.2

/-- Claim C3 (amended): the frame-callback handler renders one frame by
calling draw, and a successful draw submits the recorded render pass and
presents last; but draw never marks the surface damaged and never requests
another frame callback, so rendering does not re-arm the loop. -/
theorem C3_no_rearm (s : Wgpu) (env : Env) :
    (dispatchEvent env s Event.frame).calls = (draw s env).1 ∧
    GpuCall.damageSurface ∉ (draw s env).1 ∧
    GpuCall.requestFrameCallback ∉ (draw s env).1 ∧
    ((draw s env).2 = none →
      GpuCall.submit ∈ (draw s env).1 ∧ (draw s env).1.getLast? = some GpuCall.present) := by
  refine ⟨rfl, draw_no_damage s env, draw_no_rearm s env, ?_⟩
  intro hok
  rcases hf : env.formats with _ | ⟨f, fs⟩
  · simp [draw, hf] at hok
  · rcases ha : env.acquire 0 with t | e
    · rw [draw_ok_eq s env f fs t hf ha]
      exact ⟨by simp, rfl⟩
    · rw [draw_err_eq s env f fs e hf ha] at hok
      simp at hok

/-- Witness for C3 at the healthy environment. -/
theorem C3_witness :
    GpuCall.submit ∈ (draw initWgpu envOk).1 ∧
    (draw initWgpu envOk).1.getLast? = some GpuCall.present :=
  (C3_no_rearm initWgpu envOk).2.2.2 rfl

/-- Claim C4: a configure event reporting size (0,0) stores the fallback
dimensions 256 by 256 and any surface configuration performed while handling
it (hence the one preceding the acquire inside the triggered draw) carries
those fallback dimensions; a configure event whose reported size has both
components nonzero stores exactly that size. -/
theorem C4_configure_fallback (env : Env) (s : Wgpu) (w h : Nat) :
    ((dispatchEvent env s (Event.configure (0, 0))).state.width = 256 ∧
      (dispatchEvent env s (Event.configure (0, 0))).state.height = 256 ∧
      ∀ cfg : SurfaceConfiguration,
        GpuCall.configureSurface cfg ∈ (dispatchEvent env s (Event.configure (0, 0))).calls →
          cfg.width = 256 ∧ cfg.height = 256) ∧
    (w ≠ 0 → h ≠ 0 →
      (dispatchEvent env s (Event.configure (w, h))).state.width = w ∧
      (dispatchEvent env s (Event.configure (w, h))).state.height = h) := by
  constructor
  · refine ⟨?_, ?_, fun cfg hcfg => ?_⟩
    · rw [dispatch_configure_width]
      norm_num
    · rw [dispatch_configure_height]
      norm_num
    · have hc := dispatch_configure_calls_cfg env s (0, 0) cfg hcfg
      simpa using hc
  · intro hw hh
    constructor
    · rw [dispatch_configure_width]
      simp [hw, hh]
    · rw [dispatch_configure_height]
      simp [hw, hh]

/-- Witness for C4 at a concrete nonzero configure. -/
theorem C4_witness :
    (dispatchEvent envOk initWgpu (Event.configure (1920, 1080))).state.width = 1920 ∧
    (dispatchEvent envOk initWgpu (Event.configure (1920, 1080))).state.height = 1080 :=
  (C4_configure_fallback envOk initWgpu 1920 1080).2 (by decide) (by decide)

/-- Claim C5: in every protocol-valid run from the initial state (a frame
callback is delivered only if previously requested, and this client never
requests one), any event whose dispatch emits GPU calls — in particular any
call of draw and the acquire inside it — is a compositor configure event, and
at that point first_configure is still set, so no earlier configure had
completed: no call to draw precedes the first configure. -/
theorem C5_no_draw_before_first_configure (env : Env) (events : List Event)
    (hvalid : validFrames env events) :
    ∀ i, i < events.length → callsAt env events i ≠ [] →
      isConfigureEvent (events.getD i Event.closed) = true ∧
      (stateAfterEvents env initWgpu (events.take i)).first_configure = true := by
  intro i hi hcalls
  unfold callsAt at hcalls
  rcases dispatch_calls_cases env _ _ hcalls with ⟨hcfg, hfc⟩ | hframe
  · exact ⟨hcfg, hfc⟩
  · exfalso
    rcases hvalid i hi hframe with ⟨j, hj, hmem⟩
    unfold callsAt at hmem
    exact dispatch_no_rearm env _ _ hmem

/-- Witness for C5 at a concrete one-configure run. -/
theorem C5_witness :
    isConfigureEvent (([Event.configure (1, 1)]).getD 0 Event.closed) = true ∧
    (stateAfterEvents envOk initWgpu (([Event.configure (1, 1)]).take 0)).first_configure = true :=
  C5_no_draw_before_first_configure envOk [Event.configure (1, 1)]
    (fun i hi hf => by
      have hi0 : i = 0 := Nat.lt_one_iff.mp hi
      subst hi0
      exact absurd hf (by decide))
    0 (by decide) (by decide)

/-- Claim C6: for positive surface dimensions the pointer normalization maps
(0,0) to (-1,1) and (w,h) to (1,-1) exactly (in exact arithmetic). -/
theorem C6_normalization (w h : ℚ) (hw : 0 < w) (hh : 0 < h) :
    normalizePointer 0 0 w h = (-1, 1) ∧ normalizePointer w h w h = (1, -1) := by
  have hw' : w ≠ 0 := ne_of_gt hw
  have hh' : h ≠ 0 := ne_of_gt hh
  constructor
  · simp [normalizePointer]
  · simp only [normalizePointer, Prod.mk.injEq]
    constructor
    · rw [mul_div_assoc, div_self hw']
      norm_num
    · rw [mul_div_assoc, div_self hh']
      norm_num

/-- Witness for C6 at dimensions 100 by 100. -/
theorem C6_witness :
    normalizePointer 0 0 100 100 = (-1, 1) ∧ normalizePointer 100 100 100 100 = (1, -1) :=
  C6_normalization 100 100 (by norm_num) (by norm_num)

/-- Claim C7: a compositor surface-closed notification, from any state, sets
the exit flag, and the event loop then terminates with process exit code 0
regardless of any later events. -/
theorem C7_closed_terminates (env : Env) (s : Wgpu) (rest : List Event) :
    (dispatchEvent env s Event.closed).state.exit = true ∧
    runLoop env s (Event.closed :: rest) = RunResult.exitCode 0 := by
  exact ⟨rfl, rfl⟩

/-- Claim C8: the render step avoids both of its panic branches exactly when
the surface capability list of formats is non-empty and the texture acquire
succeeds; without that precondition draw panics. -/
theorem C8_draw_panic_iff (s : Wgpu) (env : Env) :
    (draw s env).2 = none ↔
      env.formats ≠ [] ∧ ∃ t, env.acquire 0 = AcquireResult.ok t := by
  rcases hf : env.formats with _ | ⟨f, fs⟩
  · simp [draw, hf]
  · rcases ha : env.acquire 0 with t | e <;> simp [draw, hf, ha]

/-- Claim C9: a key press whose keysym is Escape sets the exit flag, and the
event loop terminates with exit code 0 at its next iteration, regardless of
any later events. -/
theorem C9_escape_exits (env : Env) (s : Wgpu) (rest : List Event) :
    (dispatchEvent env s (Event.keyPress keyEscape)).state.exit = true ∧
    runLoop env s (Event.keyPress keyEscape :: rest) = RunResult.exitCode 0 := by
  exact ⟨rfl, rfl⟩

/-- Claim C10: starting from the initial 256 by 256 dimensions, after any
sequence of delivered events the stored surface width and height are both
strictly positive: every configure stores either a fully nonzero size or the
256 by 256 fallback, and no other handler touches the dimensions. -/
theorem C10_dims_always_positive (env : Env) (events : List Event) :
    0 < (stateAfterEvents env initWgpu events).width ∧
    0 < (stateAfterEvents env initWgpu events).height := by
  suffices h : ∀ (evs : List Event) (s : Wgpu), 0 < s.width → 0 < s.height →
      0 < (stateAfterEvents env s evs).width ∧ 0 < (stateAfterEvents env s evs).height by
    exact h events initWgpu (by norm_num [initWgpu]) (by norm_num [initWgpu])
  intro evs
  induction evs with
  | nil => exact fun s hw hh => ⟨hw, hh⟩
  | cons e evs ih =>
    intro s hw hh
    have hstep := dispatch_dims_pos env s e hw hh
    exact ih _ hstep.1 hstep.2
